import Mathlib

/-
Shallow embedding of `src/server.py` (GitHub MCP V2.0 Practical).

Modelling conventions:
  * `time.time()` is a rational `Time` parameter `now`, one per handler
    invocation (the claims only distinguish time between calls, not within
    one call).
  * Python dicts (`rate_limiter`, `cache`) are association lists with
    first-match lookup, in-place update and delete; `defaultdict(list)`
    reads are `(dictGet _ _).getD []`.
  * The GitHub provider (pygithub) is an oracle `Provider` of deterministic
    functions returning `Except PyExn _`; each invocation of an oracle field
    counts as one provider call, and handlers return the number of provider
    calls they made as the third component of their result.
  * Python exceptions are the explicit `PyExn` type; a handler's
    `try/except Exception` boundary becomes a total function returning an
    `Envelope`, with each raising site mapped through the except clause.
  * The lazily constructed singleton `Github` client is `ServerState.client :
    Option String` (holding the token it was built from).
  * `base64.b64decode(..).decode('utf-8')` is an oracle `decode` function,
    since the claims only need its determinism, not its arithmetic.
-/

namespace GithubMcp

abbrev Time := ℚ

/- Python dict as an association list: first-match get, in-place set
(append if absent), delete of the (unique) binding. -/

def dictGet {α : Type} : List (String × α) → String → Option α
  | [], _ => none
  | (k', v') :: rest, k => if k' = k then some v' else dictGet rest k

def dictSet {α : Type} : List (String × α) → String → α → List (String × α)
  | [], k, v => [(k, v)]
  | (k', v') :: rest, k, v =>
      if k' = k then (k, v) :: rest else (k', v') :: dictSet rest k v

def dictDel {α : Type} : List (String × α) → String → List (String × α)
  | [], _ => []
  | (k', v') :: rest, k => if k' = k then rest else (k', v') :: dictDel rest k

/- Constants from server.py lines 31-36. -/

def RATE_LIMIT : Nat := 100
def RATE_WINDOW : Time := 3600
def CACHE_TTL : Time := 300

/- The list comprehension of server.py line 43: keep timestamps with
`now - t < RATE_WINDOW`. -/
def pruneWindow (now : Time) (ts : List Time) : List Time :=
  ts.filter (fun t => now - t < RATE_WINDOW)

abbrev RateMap := List (String × List Time)

/- server.py lines 39-49.  The pruning assignment happens first, then the
ceiling check (reject without recording), otherwise append `now`. -/
def check_rate_limit (rate : RateMap) (tool_name : String) (now : Time) :
    Bool × RateMap :=
  let pruned := pruneWindow now ((dictGet rate tool_name).getD [])
  let rate := dictSet rate tool_name pruned
  if RATE_LIMIT ≤ pruned.length then
    (false, rate)
  else
    (true, dictSet rate tool_name (pruned ++ [now]))

/- The success payload of get_file_contents, which is also exactly the
dict object stored in the cache (server.py lines 156-164). -/
structure FileResult where
  content : String
  size : Nat
  cached : Bool
deriving DecidableEq

abbrev CacheMap := List (String × (FileResult × Time))

/- server.py lines 51-59: hit while fresh, delete on expiry, else absent. -/
def get_cached (cache : CacheMap) (key : String) (now : Time) :
    Option FileResult × CacheMap :=
  match dictGet cache key with
  | some (value, timestamp) =>
      if now - timestamp < CACHE_TTL then (some value, cache)
      else (none, dictDel cache key)
  | none => (none, cache)

/- server.py lines 61-63. -/
def set_cache (cache : CacheMap) (key : String) (value : FileResult)
    (now : Time) : CacheMap :=
  dictSet cache key (value, now)

/- Python exceptions that the handlers can observe.  `str` renders the
textual description used in failure envelopes. -/
inductive PyExn where
  | github (status : Int) (data : String)
  | valueError (msg : String)
deriving DecidableEq

def PyExn.str : PyExn → String
  | .github status data => toString status ++ " " ++ data
  | .valueError msg => msg

/- server.py lines 69-76: lazy singleton; `if not token` treats a missing
or empty GITHUB_TOKEN as unset.  Returns the handle plus the new singleton
state. -/
def get_github_client (token : Option String) (client : Option String) :
    Except PyExn (String × Option String) :=
  match client with
  | some g => .ok (g, some g)
  | none =>
      match token with
      | none => .error (.valueError "GITHUB_TOKEN not set")
      | some t =>
          if t = "" then .error (.valueError "GITHUB_TOKEN not set")
          else .ok (t, some t)

/- Provider-side data shapes (the fields of pygithub objects that the
handlers project; datetimes are modelled as their rendered ISO strings). -/

structure FileData where
  content : String
  sha : String
deriving DecidableEq

structure RepoData where
  name : String
  html_url : String
  description : String
  private_flag : Bool
  default_branch : String
  stargazers_count : Int
  forks_count : Int
  open_issues_count : Int
  size : Int
  created_at_iso : String
  updated_at_iso : String
  language : String
deriving DecidableEq

structure BranchData where
  name : String
  protected_flag : Bool
  commit_sha : String
deriving DecidableEq

structure CodeItem where
  name : String
  path : String
  repository_full_name : String
  html_url : String
deriving DecidableEq

structure PullData where
  number : Nat
  html_url : String
  title : String
deriving DecidableEq

structure UserData where
  login : String
deriving DecidableEq

structure CoreRate where
  limit : Int
  remaining : Int
  reset : String
deriving DecidableEq

/- The hosted provider's REST surface as a deterministic oracle. -/
structure Provider where
  get_repo : String → Except PyExn RepoData
  get_contents : String → String → String → Except PyExn FileData
  update_file : String → String → String → String → String → String →
      Except PyExn Unit
  create_file : String → String → String → String → String →
      Except PyExn Unit
  get_organization : String → Except PyExn Unit
  get_repos : String → Except PyExn (List RepoData)
  get_branches : String → Except PyExn (List BranchData)
  get_branch : String → String → Except PyExn BranchData
  create_git_ref : String → String → String → Except PyExn Unit
  search_code : String → Except PyExn (List CodeItem × Nat)
  create_pull : String → String → String → String → String →
      Except PyExn PullData
  get_user : Except PyExn UserData
  get_rate_limit : Except PyExn CoreRate

/- The uniform result envelope of section 3 of the spec:
{success: true, fields} or {success: false, error}. -/
inductive Envelope (α : Type) where
  | success (fields : α)
  | failure (error : String)
deriving DecidableEq

def Envelope.isSuccess {α : Type} : Envelope α → Bool
  | .success _ => true
  | .failure _ => false

/- The process-wide mutable state: rate_limiter, cache, _github_client. -/
structure ServerState where
  rate : RateMap
  cache : CacheMap
  client : Option String
deriving DecidableEq

/- Success payload shapes of the nine handlers. -/

structure WriteFields where
  action : String
  path : String
  size : Nat
deriving DecidableEq

structure RepoEntry where
  name : String
  url : String
  description : String
  private_flag : Bool
deriving DecidableEq

structure ReposFields where
  repos : List RepoEntry
  count : Nat
deriving DecidableEq

structure RepoInfoFields where
  name : String
  description : String
  private_flag : Bool
  default_branch : String
  stars : Int
  forks : Int
  open_issues : Int
  size : Int
  created_at : String
  updated_at : String
  language : String
deriving DecidableEq

structure BranchEntry where
  name : String
  protected_flag : Bool
  commit_sha : String
deriving DecidableEq

structure BranchesFields where
  branches : List BranchEntry
  count : Nat
deriving DecidableEq

structure CreateBranchFields where
  branch : String
  from_branch : String
  sha : String
deriving DecidableEq

structure SearchEntry where
  name : String
  path : String
  repo : String
  url : String
deriving DecidableEq

structure SearchFields where
  results : List SearchEntry
  count : Nat
  total_count : Nat
deriving DecidableEq

structure PRFields where
  pr_number : Nat
  url : String
  title : String
deriving DecidableEq

structure ToolStatus where
  used : Nat
  limit : Nat
  remaining : Int
deriving DecidableEq

structure ConnFields where
  username : String
  core : CoreRate
  mcp_rate_limits : List (String × ToolStatus)
  cache_entries : Nat
  version : String
deriving DecidableEq

/- Handlers.  Each returns (envelope, new server state, number of provider
calls made).  The `try/except Exception` boundary of each handler is
rendered by mapping every raising site through the except clause, so the
handler is a total function into `Envelope`. -/

/- server.py lines 82-129.  The inner `try` covers the read and the update;
its `except GithubException` takes the create path on status 404 and
re-raises otherwise; non-GithubException errors from the inner try
propagate straight to the outer boundary. -/
def create_or_update_file (prov : Provider) (token : Option String)
    (now : Time) (st : ServerState)
    (repo path content message branch : String) :
    Envelope WriteFields × ServerState × Nat :=
  match check_rate_limit st.rate "create_or_update_file" now with
  | (false, rate') =>
      (.failure "Rate limit exceeded (100/hour)", { st with rate := rate' }, 0)
  | (true, rate') =>
      let st := { st with rate := rate' }
      if 1024 * 1024 < content.utf8ByteSize then
        (.failure "File too large (max 1MB)", st, 0)
      else
        match get_github_client token st.client with
        | .error e => (.failure e.str, st, 0)
        | .ok (_g, client') =>
            let st := { st with client := client' }
            match prov.get_repo repo with
            | .error e => (.failure e.str, st, 1)
            | .ok _repository =>
                let inner : Except PyExn String × Nat :=
                  match prov.get_contents repo path branch with
                  | .ok file =>
                      match prov.update_file repo path message content
                          file.sha branch with
                      | .ok _ => (.ok "updated", 2)
                      | .error e => (.error e, 2)
                  | .error e => (.error e, 1)
                match inner with
                | (.ok action, n) =>
                    (.success { action := action, path := path,
                                size := content.utf8ByteSize }, st, 1 + n)
                | (.error e, n) =>
                    match e with
                    | .github status data =>
                        if status = 404 then
                          match prov.create_file repo path message content
                              branch with
                          | .ok _ =>
                              (.success { action := "created", path := path,
                                          size := content.utf8ByteSize },
                               st, 1 + n + 1)
                          | .error e2 => (.failure e2.str, st, 1 + n + 1)
                        else
                          (.failure (PyExn.github status data).str, st, 1 + n)
                    | e => (.failure e.str, st, 1 + n)

/- server.py lines 131-169.  On a cache hit Python executes
`cached["cached"] = True`, mutating the very dict object stored in the
cache (the stored tuple's timestamp is untouched); modelled by writing the
updated record back at the unchanged timestamp.  Stored payloads are
non-empty dicts, so `if cached:` is presence of the entry. -/
def get_file_contents (prov : Provider)
    (decode : String → Except PyExn String) (token : Option String)
    (now : Time) (st : ServerState) (repo path branch : String) :
    Envelope FileResult × ServerState × Nat :=
  match check_rate_limit st.rate "get_file_contents" now with
  | (false, rate') =>
      (.failure "Rate limit exceeded (100/hour)", { st with rate := rate' }, 0)
  | (true, rate') =>
      let st := { st with rate := rate' }
      let cache_key := repo ++ ":" ++ branch ++ ":" ++ path
      let looked := get_cached st.cache cache_key now
      let st := { st with cache := looked.2 }
      match looked.1 with
      | some value =>
          let value' := { value with cached := true }
          let cache' :=
            match dictGet st.cache cache_key with
            | some (_, ts) => dictSet st.cache cache_key (value', ts)
            | none => st.cache
          (.success value', { st with cache := cache' }, 0)
      | none =>
          match get_github_client token st.client with
          | .error e => (.failure e.str, st, 0)
          | .ok (_g, client') =>
              let st := { st with client := client' }
              match prov.get_repo repo with
              | .error e => (.failure e.str, st, 1)
              | .ok _repository =>
                  match prov.get_contents repo path branch with
                  | .error e => (.failure e.str, st, 2)
                  | .ok file =>
                      match decode file.content with
                      | .error e => (.failure e.str, st, 2)
                      | .ok content =>
                          let result : FileResult :=
                            { content := content,
                              size := content.utf8ByteSize, cached := false }
                          (.success result,
                           { st with cache :=
                               set_cache st.cache cache_key result now }, 2)

/- server.py lines 171-200. -/
def list_repos (prov : Provider) (token : Option String) (now : Time)
    (st : ServerState) (org : String) :
    Envelope ReposFields × ServerState × Nat :=
  match check_rate_limit st.rate "list_repos" now with
  | (false, rate') =>
      (.failure "Rate limit exceeded (100/hour)", { st with rate := rate' }, 0)
  | (true, rate') =>
      let st := { st with rate := rate' }
      match get_github_client token st.client with
      | .error e => (.failure e.str, st, 0)
      | .ok (_g, client') =>
          let st := { st with client := client' }
          match prov.get_organization org with
          | .error e => (.failure e.str, st, 1)
          | .ok _ =>
              match prov.get_repos org with
              | .error e => (.failure e.str, st, 2)
              | .ok repos =>
                  let repo_list := repos.map (fun r =>
                    ({ name := r.name, url := r.html_url,
                       description := r.description,
                       private_flag := r.private_flag } : RepoEntry))
                  (.success { repos := repo_list,
                              count := repo_list.length }, st, 2)

/- server.py lines 202-235. -/
def get_repo_info (prov : Provider) (token : Option String) (now : Time)
    (st : ServerState) (repo : String) :
    Envelope RepoInfoFields × ServerState × Nat :=
  match check_rate_limit st.rate "get_repo_info" now with
  | (false, rate') =>
      (.failure "Rate limit exceeded (100/hour)", { st with rate := rate' }, 0)
  | (true, rate') =>
      let st := { st with rate := rate' }
      match get_github_client token st.client with
      | .error e => (.failure e.str, st, 0)
      | .ok (_g, client') =>
          let st := { st with client := client' }
          match prov.get_repo repo with
          | .error e => (.failure e.str, st, 1)
          | .ok r =>
              (.success { name := r.name, description := r.description,
                          private_flag := r.private_flag,
                          default_branch := r.default_branch,
                          stars := r.stargazers_count,
                          forks := r.forks_count,
                          open_issues := r.open_issues_count,
                          size := r.size, created_at := r.created_at_iso,
                          updated_at := r.updated_at_iso,
                          language := r.language }, st, 1)

/- server.py lines 237-265. -/
def list_branches (prov : Provider) (token : Option String) (now : Time)
    (st : ServerState) (repo : String) :
    Envelope BranchesFields × ServerState × Nat :=
  match check_rate_limit st.rate "list_branches" now with
  | (false, rate') =>
      (.failure "Rate limit exceeded (100/hour)", { st with rate := rate' }, 0)
  | (true, rate') =>
      let st := { st with rate := rate' }
      match get_github_client token st.client with
      | .error e => (.failure e.str, st, 0)
      | .ok (_g, client') =>
          let st := { st with client := client' }
          match prov.get_repo repo with
          | .error e => (.failure e.str, st, 1)
          | .ok _repository =>
              match prov.get_branches repo with
              | .error e => (.failure e.str, st, 2)
              | .ok branches =>
                  let branch_list := branches.map (fun b =>
                    ({ name := b.name, protected_flag := b.protected_flag,
                       commit_sha := b.commit_sha } : BranchEntry))
                  (.success { branches := branch_list,
                              count := branch_list.length }, st, 2)

/- server.py lines 267-301. -/
def create_branch (prov : Provider) (token : Option String) (now : Time)
    (st : ServerState) (repo branch_name from_branch : String) :
    Envelope CreateBranchFields × ServerState × Nat :=
  match check_rate_limit st.rate "create_branch" now with
  | (false, rate') =>
      (.failure "Rate limit exceeded (100/hour)", { st with rate := rate' }, 0)
  | (true, rate') =>
      let st := { st with rate := rate' }
      match get_github_client token st.client with
      | .error e => (.failure e.str, st, 0)
      | .ok (_g, client') =>
          let st := { st with client := client' }
          match prov.get_repo repo with
          | .error e => (.failure e.str, st, 1)
          | .ok _repository =>
              match prov.get_branch repo from_branch with
              | .error e => (.failure e.str, st, 2)
              | .ok source =>
                  match prov.create_git_ref repo
                      ("refs/heads/" ++ branch_name) source.commit_sha with
                  | .error e => (.failure e.str, st, 3)
                  | .ok _ =>
                      (.success { branch := branch_name,
                                  from_branch := from_branch,
                                  sha := source.commit_sha }, st, 3)

/- server.py lines 318-321: `if repo:` is Python truthiness, so an empty
repository string also selects the org-scoped query. -/
def build_search_query (query : String) (repo : Option String) : String :=
  if repo.getD "" = "" then query ++ " org:Product-Data-Cloud"
  else query ++ " repo:" ++ repo.getD ""

/- The projection of the comprehension body, server.py lines 330-335. -/
def code_item_entry (item : CodeItem) : SearchEntry :=
  { name := item.name, path := item.path,
    repo := item.repository_full_name, url := item.html_url }

/- server.py lines 303-346.  The enumerate loop with `if i >= 10: break`
keeps exactly the first 10 items; `results.totalCount` is the provider's
reported total. -/
def search_code (prov : Provider) (token : Option String) (now : Time)
    (st : ServerState) (query : String) (repo : Option String) :
    Envelope SearchFields × ServerState × Nat :=
  match check_rate_limit st.rate "search_code" now with
  | (false, rate') =>
      (.failure "Rate limit exceeded (100/hour)", { st with rate := rate' }, 0)
  | (true, rate') =>
      let st := { st with rate := rate' }
      match get_github_client token st.client with
      | .error e => (.failure e.str, st, 0)
      | .ok (_g, client') =>
          let st := { st with client := client' }
          let search_query := build_search_query query repo
          match prov.search_code search_query with
          | .error e => (.failure e.str, st, 1)
          | .ok (items, totalCount) =>
              let code_results := (items.take 10).map code_item_entry
              (.success { results := code_results,
                          count := code_results.length,
                          total_count := totalCount }, st, 1)

/- server.py lines 348-388. -/
def create_pull_request (prov : Provider) (token : Option String)
    (now : Time) (st : ServerState) (repo title head base body : String) :
    Envelope PRFields × ServerState × Nat :=
  match check_rate_limit st.rate "create_pull_request" now with
  | (false, rate') =>
      (.failure "Rate limit exceeded (100/hour)", { st with rate := rate' }, 0)
  | (true, rate') =>
      let st := { st with rate := rate' }
      match get_github_client token st.client with
      | .error e => (.failure e.str, st, 0)
      | .ok (_g, client') =>
          let st := { st with client := client' }
          match prov.get_repo repo with
          | .error e => (.failure e.str, st, 1)
          | .ok _repository =>
              match prov.create_pull repo title body head base with
              | .error e => (.failure e.str, st, 2)
              | .ok pr =>
                  (.success { pr_number := pr.number, url := pr.html_url,
                              title := pr.title }, st, 2)

/- server.py lines 390-426.  Note: there is no check_rate_limit call in
this handler.  The status loop reads the rate_limiter without writing it
back (`active` is local). -/
def connection_status (prov : Provider) (token : Option String)
    (now : Time) (st : ServerState) :
    Envelope ConnFields × ServerState × Nat :=
  match get_github_client token st.client with
  | .error e => (.failure e.str, st, 0)
  | .ok (_g, client') =>
      let st := { st with client := client' }
      match prov.get_user with
      | .error e => (.failure e.str, st, 1)
      | .ok user =>
          match prov.get_rate_limit with
          | .error e => (.failure e.str, st, 2)
          | .ok rl =>
              let tool_status := st.rate.map (fun p =>
                let active := pruneWindow now p.2
                (p.1, ({ used := active.length, limit := RATE_LIMIT,
                         remaining := (RATE_LIMIT : Int) - active.length } :
                       ToolStatus)))
              (.success { username := user.login, core := rl,
                          mcp_rate_limits := tool_status,
                          cache_entries := st.cache.length,
                          version := "2.0-practical" }, st, 2)

/- Concrete fixtures used by witnesses and counterexamples. -/

def rd0 : RepoData :=
  { name := "pdc-monorepo", html_url := "https://example/r",
    description := "repo", private_flag := false,
    default_branch := "main", stargazers_count := 1, forks_count := 2,
    open_issues_count := 3, size := 4, created_at_iso := "2024-01-01",
    updated_at_iso := "2024-01-02", language := "Python" }

def fd0 : FileData := { content := "aGk=", sha := "abc123" }

def okProv : Provider :=
  { get_repo := fun _ => .ok rd0,
    get_contents := fun _ _ _ => .ok fd0,
    update_file := fun _ _ _ _ _ _ => .ok (),
    create_file := fun _ _ _ _ _ => .ok (),
    get_organization := fun _ => .ok (),
    get_repos := fun _ => .ok [rd0],
    get_branches := fun _ => .ok [],
    get_branch := fun _ _ =>
      .ok { name := "main", protected_flag := false, commit_sha := "s1" },
    create_git_ref := fun _ _ _ => .ok (),
    search_code := fun _ => .ok ([], 0),
    create_pull := fun _ _ _ _ _ =>
      .ok { number := 7, html_url := "https://example/pr", title := "t" },
    get_user := .ok { login := "octocat" },
    get_rate_limit := .ok { limit := 5000, remaining := 4999, reset := "R" } }

/- A provider every operation of which raises `e`. -/
def errProv (e : PyExn) : Provider :=
  { get_repo := fun _ => .error e,
    get_contents := fun _ _ _ => .error e,
    update_file := fun _ _ _ _ _ _ => .error e,
    create_file := fun _ _ _ _ _ => .error e,
    get_organization := fun _ => .error e,
    get_repos := fun _ => .error e,
    get_branches := fun _ => .error e,
    get_branch := fun _ _ => .error e,
    create_git_ref := fun _ _ _ => .error e,
    search_code := fun _ => .error e,
    create_pull := fun _ _ _ _ _ => .error e,
    get_user := .error e,
    get_rate_limit := .error e }

/- Provider whose file read signals not-found (create path). -/
def provNotFound : Provider :=
  { okProv with get_contents := fun _ _ _ => .error (.github 404 "Not Found") }

/- Provider whose file read fails with a non-404 error. -/
def provServerErr : Provider :=
  { okProv with get_contents := fun _ _ _ => .error (.github 500 "boom") }

def ci0 : CodeItem :=
  { name := "a.py", path := "src/a.py",
    repository_full_name := "Product-Data-Cloud/pdc-monorepo",
    html_url := "https://example/a" }

/- Provider reporting 57 total matches and returning 12 items. -/
def provMany : Provider :=
  { okProv with search_code := fun _ => .ok (List.replicate 12 ci0, 57) }

def decodeOk : String → Except PyExn String := fun s => .ok s

def st0 : ServerState := { rate := [], cache := [], client := none }

def stTok : ServerState := { rate := [], cache := [], client := some "tok" }

/- A state in which the rate limiter has 100 in-window recorded calls for
connection_status. -/
def stConnFull : ServerState :=
  { rate := [("connection_status", List.replicate 100 (0 : ℚ))],
    cache := [], client := some "tok" }

/- A state in which every rate-limited tool has 100 in-window recorded
calls. -/
def stAllFull : ServerState :=
  { rate := [("create_or_update_file", List.replicate 100 (0 : ℚ)),
             ("get_file_contents", List.replicate 100 (0 : ℚ)),
             ("list_repos", List.replicate 100 (0 : ℚ)),
             ("get_repo_info", List.replicate 100 (0 : ℚ)),
             ("list_branches", List.replicate 100 (0 : ℚ)),
             ("create_branch", List.replicate 100 (0 : ℚ)),
             ("search_code", List.replicate 100 (0 : ℚ)),
             ("create_pull_request", List.replicate 100 (0 : ℚ))],
    cache := [], client := some "tok" }

def fr0 : FileResult := { content := "hello", size := 5, cached := false }

/- A state holding one fresh cache entry (written at time 0). -/
def stCached : ServerState :=
  { rate := [], cache := [("r:main:p", (fr0, (0 : ℚ)))], client := some "tok" }

/- Content one byte over the 1 MiB cap. -/
def bigContent : String := String.mk (List.replicate 1048577 'a')

/- Helper lemmas shared by the claim theorems below. -/

theorem dictGet_dictSet_self {α : Type} (m : List (String × α)) (k : String)
    (v : α) : dictGet (dictSet m k v) k = some v := by
  induction m with
  | nil => simp [dictSet, dictGet]
  | cons p rest ih =>
      obtain ⟨k', v'⟩ := p
      by_cases h : k' = k <;> simp [dictSet, dictGet, h, ih]

theorem dictSet_dictSet {α : Type} (m : List (String × α)) (k : String)
    (v w : α) : dictSet (dictSet m k v) k w = dictSet m k w := by
  induction m with
  | nil => simp [dictSet]
  | cons p rest ih =>
      obtain ⟨k', v'⟩ := p
      by_cases h : k' = k <;> simp [dictSet, h, ih]

/- A saturated tool rejects without recording: the final list is the
pruned list only. -/
theorem check_rate_limit_reject (rate : RateMap) (tool : String) (now : Time)
    (h : RATE_LIMIT ≤ (pruneWindow now ((dictGet rate tool).getD [])).length) :
    check_rate_limit rate tool now =
      (false, dictSet rate tool
        (pruneWindow now ((dictGet rate tool).getD []))) := by
  unfold check_rate_limit
  simp [h]

/- An unsaturated tool admits and appends the current timestamp. -/
theorem check_rate_limit_accepts (rate : RateMap) (tool : String) (now : Time)
    (h : (pruneWindow now ((dictGet rate tool).getD [])).length < RATE_LIMIT) :
    check_rate_limit rate tool now =
      (true, dictSet rate tool
        (pruneWindow now ((dictGet rate tool).getD []) ++ [now])) := by
  unfold check_rate_limit
  rw [if_neg (by omega), dictSet_dictSet]

theorem envelope_cases {α : Type} (env : Envelope α) :
    (∃ p, env = Envelope.success p) ∨ (∃ s, env = Envelope.failure s) := by
  cases env with
  | success p => exact Or.inl ⟨p, rfl⟩
  | failure s => exact Or.inr ⟨s, rfl⟩

theorem utf8ByteSize_replicate_succ (n : Nat) :
    (String.mk (List.replicate (n + 1) 'a')).utf8ByteSize =
      (String.mk (List.replicate n 'a')).utf8ByteSize + 1 := by
  rw [List.replicate_succ]
  simp [String.utf8ByteSize, String.utf8ByteSize.go, Char.utf8Size]

theorem utf8ByteSize_replicate (n : Nat) :
    (String.mk (List.replicate n 'a')).utf8ByteSize = n := by
  induction n with
  | zero => rfl
  | succ n ih => rw [utf8ByteSize_replicate_succ, ih]

theorem bigContent_size : bigContent.utf8ByteSize = 1048577 :=
  utf8ByteSize_replicate 1048577

/-- C2: for every tool name, once the tool has exactly 100 recorded calls
inside the trailing 3600-second window, the next call is rejected without
recording (the timestamp list is left equal to the pruned list); and each
of the eight rate-limited handlers, when its own tool is saturated,
returns the rate-limit error envelope, performs no provider call, and
leaves the state otherwise unchanged (pruning apart). -/
theorem C2_rate_limit_101st_rejected
    (st : ServerState) (prov : Provider)
    (decode : String → Except PyExn String) (token : Option String)
    (now : Time)
    (repo path content message branch org bn fb query title head base
      body : String)
    (repoOpt : Option String) :
    (∀ tool rate,
      (pruneWindow now ((dictGet rate tool).getD [])).length = RATE_LIMIT →
      check_rate_limit rate tool now =
        (false, dictSet rate tool
          (pruneWindow now ((dictGet rate tool).getD [])))) ∧
    ((pruneWindow now
        ((dictGet st.rate "create_or_update_file").getD [])).length =
          RATE_LIMIT →
      create_or_update_file prov token now st repo path content message
          branch =
        (.failure "Rate limit exceeded (100/hour)",
         { st with rate := (dictSet st.rate "create_or_update_file"
             (pruneWindow now
               ((dictGet st.rate "create_or_update_file").getD []))) },
         0)) ∧
    ((pruneWindow now
        ((dictGet st.rate "get_file_contents").getD [])).length =
          RATE_LIMIT →
      get_file_contents prov decode token now st repo path branch =
        (.failure "Rate limit exceeded (100/hour)",
         { st with rate := (dictSet st.rate "get_file_contents"
             (pruneWindow now
               ((dictGet st.rate "get_file_contents").getD []))) },
         0)) ∧
    ((pruneWindow now
        ((dictGet st.rate "list_repos").getD [])).length = RATE_LIMIT →
      list_repos prov token now st org =
        (.failure "Rate limit exceeded (100/hour)",
         { st with rate := (dictSet st.rate "list_repos"
             (pruneWindow now
               ((dictGet st.rate "list_repos").getD []))) },
         0)) ∧
    ((pruneWindow now
        ((dictGet st.rate "get_repo_info").getD [])).length = RATE_LIMIT →
      get_repo_info prov token now st repo =
        (.failure "Rate limit exceeded (100/hour)",
         { st with rate := (dictSet st.rate "get_repo_info"
             (pruneWindow now
               ((dictGet st.rate "get_repo_info").getD []))) },
         0)) ∧
    ((pruneWindow now
        ((dictGet st.rate "list_branches").getD [])).length = RATE_LIMIT →
      list_branches prov token now st repo =
        (.failure "Rate limit exceeded (100/hour)",
         { st with rate := (dictSet st.rate "list_branches"
             (pruneWindow now
               ((dictGet st.rate "list_branches").getD []))) },
         0)) ∧
    ((pruneWindow now
        ((dictGet st.rate "create_branch").getD [])).length = RATE_LIMIT →
      create_branch prov token now st repo bn fb =
        (.failure "Rate limit exceeded (100/hour)",
         { st with rate := (dictSet st.rate "create_branch"
             (pruneWindow now
               ((dictGet st.rate "create_branch").getD []))) },
         0)) ∧
    ((pruneWindow now
        ((dictGet st.rate "search_code").getD [])).length = RATE_LIMIT →
      search_code prov token now st query repoOpt =
        (.failure "Rate limit exceeded (100/hour)",
         { st with rate := (dictSet st.rate "search_code"
             (pruneWindow now
               ((dictGet st.rate "search_code").getD []))) },
         0)) ∧
    ((pruneWindow now
        ((dictGet st.rate "create_pull_request").getD [])).length =
          RATE_LIMIT →
      create_pull_request prov token now st repo title head base body =
        (.failure "Rate limit exceeded (100/hour)",
         { st with rate := (dictSet st.rate "create_pull_request"
             (pruneWindow now
               ((dictGet st.rate "create_pull_request").getD []))) },
         0)) := by
  refine ⟨?_, ?_, ?_, ?_, ?_, ?_, ?_, ?_, ?_⟩
  · intro tool rate h
    exact check_rate_limit_reject rate tool now (le_of_eq h.symm)
  · intro h
    unfold create_or_update_file
    rw [check_rate_limit_reject _ _ _ (le_of_eq h.symm)]
  · intro h
    unfold get_file_contents
    rw [check_rate_limit_reject _ _ _ (le_of_eq h.symm)]
  · intro h
    unfold list_repos
    rw [check_rate_limit_reject _ _ _ (le_of_eq h.symm)]
  · intro h
    unfold get_repo_info
    rw [check_rate_limit_reject _ _ _ (le_of_eq h.symm)]
  · intro h
    unfold list_branches
    rw [check_rate_limit_reject _ _ _ (le_of_eq h.symm)]
  · intro h
    unfold create_branch
    rw [check_rate_limit_reject _ _ _ (le_of_eq h.symm)]
  · intro h
    unfold search_code
    rw [check_rate_limit_reject _ _ _ (le_of_eq h.symm)]
  · intro h
    unfold create_pull_request
    rw [check_rate_limit_reject _ _ _ (le_of_eq h.symm)]

/-- Witness for C2 at a concrete state in which every rate-limited tool is
saturated with 100 in-window calls: each of the eight handlers is rejected
with the rate-limit envelope, no provider call, and a pruned-only list. -/
theorem C2_rate_limit_101st_rejected_witness :
    (pruneWindow 0
      ((dictGet stAllFull.rate "create_or_update_file").getD [])).length =
        RATE_LIMIT ∧
    (pruneWindow 0
      ((dictGet stAllFull.rate "get_file_contents").getD [])).length =
        RATE_LIMIT ∧
    (pruneWindow 0
      ((dictGet stAllFull.rate "list_repos").getD [])).length =
        RATE_LIMIT ∧
    (pruneWindow 0
      ((dictGet stAllFull.rate "get_repo_info").getD [])).length =
        RATE_LIMIT ∧
    (pruneWindow 0
      ((dictGet stAllFull.rate "list_branches").getD [])).length =
        RATE_LIMIT ∧
    (pruneWindow 0
      ((dictGet stAllFull.rate "create_branch").getD [])).length =
        RATE_LIMIT ∧
    (pruneWindow 0
      ((dictGet stAllFull.rate "search_code").getD [])).length =
        RATE_LIMIT ∧
    (pruneWindow 0
      ((dictGet stAllFull.rate "create_pull_request").getD [])).length =
        RATE_LIMIT ∧
    check_rate_limit stAllFull.rate "create_or_update_file" 0 =
      (false, dictSet stAllFull.rate "create_or_update_file"
        (pruneWindow 0
          ((dictGet stAllFull.rate "create_or_update_file").getD []))) ∧
    create_or_update_file okProv (some "tok") 0 stAllFull "r" "p" "c" "m"
        "main" =
      (.failure "Rate limit exceeded (100/hour)",
       { stAllFull with rate := (dictSet stAllFull.rate
           "create_or_update_file"
           (pruneWindow 0
             ((dictGet stAllFull.rate "create_or_update_file").getD []))) },
       0) ∧
    get_file_contents okProv decodeOk (some "tok") 0 stAllFull "r" "p"
        "main" =
      (.failure "Rate limit exceeded (100/hour)",
       { stAllFull with rate := (dictSet stAllFull.rate "get_file_contents"
           (pruneWindow 0
             ((dictGet stAllFull.rate "get_file_contents").getD []))) },
       0) ∧
    list_repos okProv (some "tok") 0 stAllFull "Product-Data-Cloud" =
      (.failure "Rate limit exceeded (100/hour)",
       { stAllFull with rate := (dictSet stAllFull.rate "list_repos"
           (pruneWindow 0
             ((dictGet stAllFull.rate "list_repos").getD []))) },
       0) ∧
    get_repo_info okProv (some "tok") 0 stAllFull "r" =
      (.failure "Rate limit exceeded (100/hour)",
       { stAllFull with rate := (dictSet stAllFull.rate "get_repo_info"
           (pruneWindow 0
             ((dictGet stAllFull.rate "get_repo_info").getD []))) },
       0) ∧
    list_branches okProv (some "tok") 0 stAllFull "r" =
      (.failure "Rate limit exceeded (100/hour)",
       { stAllFull with rate := (dictSet stAllFull.rate "list_branches"
           (pruneWindow 0
             ((dictGet stAllFull.rate "list_branches").getD []))) },
       0) ∧
    create_branch okProv (some "tok") 0 stAllFull "r" "bn" "main" =
      (.failure "Rate limit exceeded (100/hour)",
       { stAllFull with rate := (dictSet stAllFull.rate "create_branch"
           (pruneWindow 0
             ((dictGet stAllFull.rate "create_branch").getD []))) },
       0) ∧
    search_code okProv (some "tok") 0 stAllFull "q" none =
      (.failure "Rate limit exceeded (100/hour)",
       { stAllFull with rate := (dictSet stAllFull.rate "search_code"
           (pruneWindow 0
             ((dictGet stAllFull.rate "search_code").getD []))) },
       0) ∧
    create_pull_request okProv (some "tok") 0 stAllFull "r" "t" "hb"
        "main" "" =
      (.failure "Rate limit exceeded (100/hour)",
       { stAllFull with rate := (dictSet stAllFull.rate
           "create_pull_request"
           (pruneWindow 0
             ((dictGet stAllFull.rate "create_pull_request").getD []))) },
       0) := by
  have hall : ∀ l : List Time, l = List.replicate 100 (0 : ℚ) →
      (pruneWindow 0 l).length = RATE_LIMIT := by
    intro l e
    rw [e]
    norm_num [pruneWindow, List.filter_replicate, RATE_WINDOW, RATE_LIMIT]
  have h1 : (pruneWindow 0
      ((dictGet stAllFull.rate "create_or_update_file").getD [])).length =
        RATE_LIMIT := hall _ (by decide)
  have h2 : (pruneWindow 0
      ((dictGet stAllFull.rate "get_file_contents").getD [])).length =
        RATE_LIMIT := hall _ (by decide)
  have h3 : (pruneWindow 0
      ((dictGet stAllFull.rate "list_repos").getD [])).length =
        RATE_LIMIT := hall _ (by decide)
  have h4 : (pruneWindow 0
      ((dictGet stAllFull.rate "get_repo_info").getD [])).length =
        RATE_LIMIT := hall _ (by decide)
  have h5 : (pruneWindow 0
      ((dictGet stAllFull.rate "list_branches").getD [])).length =
        RATE_LIMIT := hall _ (by decide)
  have h6 : (pruneWindow 0
      ((dictGet stAllFull.rate "create_branch").getD [])).length =
        RATE_LIMIT := hall _ (by decide)
  have h7 : (pruneWindow 0
      ((dictGet stAllFull.rate "search_code").getD [])).length =
        RATE_LIMIT := hall _ (by decide)
  have h8 : (pruneWindow 0
      ((dictGet stAllFull.rate "create_pull_request").getD [])).length =
        RATE_LIMIT := hall _ (by decide)
  obtain ⟨hgen, c1, c2, c3, c4, c5, c6, c7, c8⟩ :=
    C2_rate_limit_101st_rejected stAllFull okProv decodeOk (some "tok") 0
      "r" "p" "c" "m" "main" "Product-Data-Cloud" "bn" "main" "q" "t" "hb"
      "main" "" none
  exact ⟨h1, h2, h3, h4, h5, h6, h7, h8,
         hgen "create_or_update_file" stAllFull.rate h1,
         c1 h1, c2 h2, c3 h3, c4 h4, c5 h5, c6 h6, c7 h7, c8 h8⟩

/-- C1 counterexample: with 100 recorded in-window calls for
connection_status and a healthy provider, a further connection_status call
is NOT rejected with a rate-limit error envelope before any provider call:
it returns a success envelope and makes two provider calls. -/
theorem C1_connection_status_counterexample :
    (pruneWindow 0
      ((dictGet stConnFull.rate "connection_status").getD [])).length =
        RATE_LIMIT ∧
    (connection_status okProv (some "tok") 0 stConnFull).1.isSuccess =
        true ∧
    (connection_status okProv (some "tok") 0 stConnFull).2.2 = 2 := by
  refine ⟨?_, rfl, rfl⟩
  norm_num [stConnFull, dictGet, pruneWindow, List.filter_replicate,
    RATE_WINDOW, RATE_LIMIT]

/-- C1 (amended): connection_status is not subject to the sliding-window
rate limiter: it performs no rate-limit check, leaves the rate-limiter
state (and the cache) unchanged, and whenever the client singleton is
already available it proceeds to the provider regardless of how many
recorded calls are in the window. -/
theorem C1_connection_status_not_rate_limited (prov : Provider)
    (token : Option String) (now : Time) (st : ServerState) :
    (connection_status prov token now st).2.1.rate = st.rate ∧
    (connection_status prov token now st).2.1.cache = st.cache ∧
    ∀ g rate cache,
      1 ≤ (connection_status prov token now ⟨rate, cache, some g⟩).2.2 := by
  have key : ∀ s : ServerState,
      (connection_status prov token now s).2.1.rate = s.rate ∧
      (connection_status prov token now s).2.1.cache = s.cache := by
    intro s
    unfold connection_status
    rcases hc : get_github_client token s.client with e | ⟨g, client'⟩
    · simp [hc]
    · simp only [hc]
      rcases hu : prov.get_user with e | u
      · simp [hu]
      · simp only [hu]
        rcases hr : prov.get_rate_limit with e | rl
        · simp [hr]
        · simp [hr]
  refine ⟨(key st).1, (key st).2, ?_⟩
  intro g rate cache
  unfold connection_status
  simp only [get_github_client]
  rcases hu : prov.get_user with e | u
  · simp [hu]
  · simp only [hu]
    rcases hr : prov.get_rate_limit with e | rl
    · simp [hr]
    · simp [hr]

/-- C4: a cache lookup whose entry is at least CACHE_TTL = 300 seconds old
is a miss: get_cached returns absent and removes the stored entry, and the
admitted get_file_contents handler (with the client available) performs a
fresh provider fetch (at least one provider call) instead of serving the
stale entry. -/
theorem C4_cache_expiry_is_miss
    (st : ServerState) (prov : Provider)
    (decode : String → Except PyExn String) (token : Option String)
    (g : String) (now : Time) (repo path branch : String)
    (v : FileResult) (ts : Time)
    (hget : dictGet st.cache (repo ++ ":" ++ branch ++ ":" ++ path) =
        some (v, ts))
    (hexp : CACHE_TTL ≤ now - ts)
    (hrate : (pruneWindow now
        ((dictGet st.rate "get_file_contents").getD [])).length < RATE_LIMIT)
    (hclient : st.client = some g) :
    get_cached st.cache (repo ++ ":" ++ branch ++ ":" ++ path) now =
      (none, dictDel st.cache (repo ++ ":" ++ branch ++ ":" ++ path)) ∧
    1 ≤ (get_file_contents prov decode token now st repo path branch).2.2 := by
  have hmiss : get_cached st.cache (repo ++ ":" ++ branch ++ ":" ++ path)
      now =
      (none, dictDel st.cache (repo ++ ":" ++ branch ++ ":" ++ path)) := by
    unfold get_cached
    simp only [hget]
    rw [if_neg (not_lt.mpr hexp)]
  refine ⟨hmiss, ?_⟩
  unfold get_file_contents
  rw [check_rate_limit_accepts _ _ _ hrate]
  simp only [hmiss, hclient, get_github_client]
  rcases hrp : prov.get_repo repo with e | rd
  · simp [hrp]
  · simp only [hrp]
    rcases hgc : prov.get_contents repo path branch with e | fd
    · simp [hgc]
    · simp only [hgc]
      rcases hdc : decode fd.content with e | content
      · simp [hdc]
      · simp [hdc]

/-- Witness for C4: a concrete entry written at time 0 and read at
time 300 is evicted and the handler calls the provider. -/
theorem C4_cache_expiry_is_miss_witness :
    dictGet stCached.cache ("r" ++ ":" ++ "main" ++ ":" ++ "p") =
      some (fr0, 0) ∧
    CACHE_TTL ≤ (300 : ℚ) - 0 ∧
    get_cached stCached.cache ("r" ++ ":" ++ "main" ++ ":" ++ "p") 300 =
      (none, dictDel stCached.cache ("r" ++ ":" ++ "main" ++ ":" ++ "p")) ∧
    1 ≤ (get_file_contents okProv decodeOk (some "tok") 300 stCached
        "r" "p" "main").2.2 :=
  have hget : dictGet stCached.cache ("r" ++ ":" ++ "main" ++ ":" ++ "p") =
      some (fr0, 0) := by decide
  have hexp : CACHE_TTL ≤ (300 : ℚ) - 0 := by norm_num [CACHE_TTL]
  have hrate : (pruneWindow 300
      ((dictGet stCached.rate "get_file_contents").getD [])).length <
        RATE_LIMIT := by decide
  have h := C4_cache_expiry_is_miss stCached okProv decodeOk (some "tok")
    "tok" 300 "r" "p" "main" fr0 0 hget hexp hrate rfl
  ⟨hget, hexp, h.1, h.2⟩

/-- C5: a successful fresh file read (admitted, cache miss, provider fetch
and decode succeed) followed within the 300-second TTL by a second
admitted read of the same (repo, branch, path) key returns the identical
content, marks the second response cached = true, and performs no provider
call in the second read. -/
theorem C5_second_read_served_from_cache
    (st : ServerState) (prov prov2 : Provider)
    (decode decode2 : String → Except PyExn String)
    (token token2 : Option String) (g : String) (rd : RepoData)
    (fd : FileData) (content : String) (now1 now2 : Time)
    (repo path branch : String)
    (hrate1 : (pruneWindow now1
        ((dictGet st.rate "get_file_contents").getD [])).length < RATE_LIMIT)
    (hmiss : (get_cached st.cache (repo ++ ":" ++ branch ++ ":" ++ path)
        now1).1 = none)
    (hclient : st.client = some g)
    (hrp : prov.get_repo repo = .ok rd)
    (hgc : prov.get_contents repo path branch = .ok fd)
    (hdc : decode fd.content = .ok content)
    (hrate2 : (pruneWindow now2 ((dictGet
        (get_file_contents prov decode token now1 st repo path branch).2.1.rate
        "get_file_contents").getD [])).length < RATE_LIMIT)
    (httl : now2 - now1 < CACHE_TTL) :
    (get_file_contents prov decode token now1 st repo path branch).1 =
      .success { content := content, size := content.utf8ByteSize,
                 cached := false } ∧
    (get_file_contents prov2 decode2 token2 now2
        (get_file_contents prov decode token now1 st repo path branch).2.1
        repo path branch).1 =
      .success { content := content, size := content.utf8ByteSize,
                 cached := true } ∧
    (get_file_contents prov2 decode2 token2 now2
        (get_file_contents prov decode token now1 st repo path branch).2.1
        repo path branch).2.2 = 0 := by
  have h1 : get_file_contents prov decode token now1 st repo path branch =
      (.success ({ content := content, size := content.utf8ByteSize,
                   cached := false } : FileResult),
       { st with
           rate := (dictSet st.rate "get_file_contents"
             (pruneWindow now1
               ((dictGet st.rate "get_file_contents").getD []) ++ [now1])),
           cache := (set_cache
             (get_cached st.cache (repo ++ ":" ++ branch ++ ":" ++ path)
               now1).2
             (repo ++ ":" ++ branch ++ ":" ++ path)
             { content := content, size := content.utf8ByteSize,
               cached := false } now1),
           client := some g },
       2) := by
    unfold get_file_contents
    rw [check_rate_limit_accepts _ _ _ hrate1]
    simp only [hmiss, hclient, get_github_client, hrp, hgc, hdc]
  have hhit : get_cached
      (set_cache
        (get_cached st.cache (repo ++ ":" ++ branch ++ ":" ++ path) now1).2
        (repo ++ ":" ++ branch ++ ":" ++ path)
        { content := content, size := content.utf8ByteSize,
          cached := false } now1)
      (repo ++ ":" ++ branch ++ ":" ++ path) now2 =
      (some ({ content := content, size := content.utf8ByteSize,
               cached := false } : FileResult),
       set_cache
        (get_cached st.cache (repo ++ ":" ++ branch ++ ":" ++ path) now1).2
        (repo ++ ":" ++ branch ++ ":" ++ path)
        { content := content, size := content.utf8ByteSize,
          cached := false } now1) := by
    unfold get_cached set_cache
    simp only [dictGet_dictSet_self]
    rw [if_pos httl]
  rw [h1] at hrate2 ⊢
  refine ⟨rfl, ?_, ?_⟩
  · unfold get_file_contents
    rw [check_rate_limit_accepts _ _ _ hrate2]
    simp only [hhit]
  · unfold get_file_contents
    rw [check_rate_limit_accepts _ _ _ hrate2]
    simp only [hhit]

/-- Witness for C5: concrete fetch at time 0 then cached re-read at
time 100. -/
theorem C5_second_read_served_from_cache_witness :
    (get_file_contents okProv decodeOk (some "tok") 0 stTok
        "r" "p" "main").1 =
      .success { content := "aGk=", size := ("aGk=" : String).utf8ByteSize,
                 cached := false } ∧
    (get_file_contents okProv decodeOk (some "tok") 100
        (get_file_contents okProv decodeOk (some "tok") 0 stTok
          "r" "p" "main").2.1 "r" "p" "main").1 =
      .success { content := "aGk=", size := ("aGk=" : String).utf8ByteSize,
                 cached := true } ∧
    (get_file_contents okProv decodeOk (some "tok") 100
        (get_file_contents okProv decodeOk (some "tok") 0 stTok
          "r" "p" "main").2.1 "r" "p" "main").2.2 = 0 := by
  have hrate1 : (pruneWindow 0
      ((dictGet stTok.rate "get_file_contents").getD [])).length <
        RATE_LIMIT := by
    norm_num [stTok, dictGet, pruneWindow, RATE_LIMIT]
  have hmiss : (get_cached stTok.cache ("r" ++ ":" ++ "main" ++ ":" ++ "p")
      0).1 = none := by
    norm_num [stTok, get_cached, dictGet]
  have hrate2 : (pruneWindow 100 ((dictGet
      (get_file_contents okProv decodeOk (some "tok") 0 stTok
        "r" "p" "main").2.1.rate
      "get_file_contents").getD [])).length < RATE_LIMIT := by
    norm_num [get_file_contents, check_rate_limit, stTok, okProv, decodeOk,
      fd0, get_cached, get_github_client, dictGet, dictSet, pruneWindow,
      set_cache, RATE_LIMIT, RATE_WINDOW, List.filter]
  have httl : (100 : ℚ) - 0 < CACHE_TTL := by norm_num [CACHE_TTL]
  exact C5_second_read_served_from_cache stTok okProv okProv decodeOk
    decodeOk (some "tok") (some "tok") "tok" rd0 fd0 "aGk=" 0 100
    "r" "p" "main" hrate1 hmiss rfl rfl rfl rfl hrate2 httl

/-- C9: a cache hit mutates the shared cache state: the handler sets
cached = true on the dict object stored in the cache itself, so after the
hit the stored entry for the key carries cached = true with its original
write timestamp unchanged (and the hit makes no provider call). -/
theorem C9_cache_hit_mutates_stored_entry
    (st : ServerState) (prov : Provider)
    (decode : String → Except PyExn String) (token : Option String)
    (now : Time) (repo path branch : String) (v : FileResult) (ts : Time)
    (hrate : (pruneWindow now
        ((dictGet st.rate "get_file_contents").getD [])).length < RATE_LIMIT)
    (hget : dictGet st.cache (repo ++ ":" ++ branch ++ ":" ++ path) =
        some (v, ts))
    (hfresh : now - ts < CACHE_TTL) :
    (get_file_contents prov decode token now st repo path branch).1 =
      .success { v with cached := true } ∧
    dictGet
      (get_file_contents prov decode token now st repo path branch).2.1.cache
      (repo ++ ":" ++ branch ++ ":" ++ path) =
      some ({ v with cached := true }, ts) ∧
    (get_file_contents prov decode token now st repo path branch).2.2 =
      0 := by
  have hhit : get_cached st.cache (repo ++ ":" ++ branch ++ ":" ++ path)
      now = (some v, st.cache) := by
    unfold get_cached
    simp only [hget]
    rw [if_pos hfresh]
  unfold get_file_contents
  rw [check_rate_limit_accepts _ _ _ hrate]
  simp [hhit, hget, dictGet_dictSet_self]

/-- Witness for C9: a concrete hit at time 100 on an entry written at
time 0 stores cached = true back at timestamp 0. -/
theorem C9_cache_hit_mutates_stored_entry_witness :
    dictGet stCached.cache ("r" ++ ":" ++ "main" ++ ":" ++ "p") =
      some (fr0, 0) ∧
    (100 : ℚ) - 0 < CACHE_TTL ∧
    (get_file_contents okProv decodeOk (some "tok") 100 stCached
        "r" "p" "main").1 = .success { fr0 with cached := true } ∧
    dictGet
      (get_file_contents okProv decodeOk (some "tok") 100 stCached
        "r" "p" "main").2.1.cache
      ("r" ++ ":" ++ "main" ++ ":" ++ "p") =
      some ({ fr0 with cached := true }, 0) ∧
    (get_file_contents okProv decodeOk (some "tok") 100 stCached
        "r" "p" "main").2.2 = 0 := by
  have hget : dictGet stCached.cache ("r" ++ ":" ++ "main" ++ ":" ++ "p") =
      some (fr0, 0) := by decide
  have hfresh : (100 : ℚ) - 0 < CACHE_TTL := by norm_num [CACHE_TTL]
  have hrate : (pruneWindow 100
      ((dictGet stCached.rate "get_file_contents").getD [])).length <
        RATE_LIMIT := by
    norm_num [stCached, dictGet, pruneWindow, RATE_LIMIT]
  have h := C9_cache_hit_mutates_stored_entry stCached okProv decodeOk
    (some "tok") 100 "r" "p" "main" fr0 0 hrate hget hfresh
  exact ⟨hget, hfresh, h.1, h.2.1, h.2.2⟩

/-- C6: an admitted write-file call whose content exceeds 1,048,576 UTF-8
bytes is rejected with a failure envelope, performs no provider call,
leaves the client singleton unconstructed, and its outcome is independent
of both the provider and the credential. -/
theorem C6_oversize_rejected_before_provider
    (st : ServerState) (prov prov2 : Provider)
    (token token2 : Option String) (now : Time)
    (repo path content message branch : String)
    (hrate : (pruneWindow now
        ((dictGet st.rate "create_or_update_file").getD [])).length <
          RATE_LIMIT)
    (hsize : 1024 * 1024 < content.utf8ByteSize) :
    (create_or_update_file prov token now st repo path content message
        branch).1 = .failure "File too large (max 1MB)" ∧
    (create_or_update_file prov token now st repo path content message
        branch).2.2 = 0 ∧
    (create_or_update_file prov token now st repo path content message
        branch).2.1.client = st.client ∧
    create_or_update_file prov token now st repo path content message
        branch =
      create_or_update_file prov2 token2 now st repo path content message
        branch := by
  have key : ∀ (p : Provider) (t : Option String),
      create_or_update_file p t now st repo path content message branch =
      (.failure "File too large (max 1MB)",
       { st with rate := (dictSet st.rate "create_or_update_file"
           (pruneWindow now
             ((dictGet st.rate "create_or_update_file").getD []) ++
               [now])) },
       0) := by
    intro p t
    unfold create_or_update_file
    rw [check_rate_limit_accepts _ _ _ hrate]
    simp [hsize]
  rw [key prov token, key prov2 token2]
  exact ⟨rfl, rfl, rfl, rfl⟩

/-- Witness for C6 with a 1,048,577-byte content, an unset credential and
a provider that would fail every call. -/
theorem C6_oversize_rejected_before_provider_witness :
    1024 * 1024 < bigContent.utf8ByteSize ∧
    (create_or_update_file okProv none 0 st0 "r" "p" bigContent "m"
        "main").1 = .failure "File too large (max 1MB)" ∧
    (create_or_update_file okProv none 0 st0 "r" "p" bigContent "m"
        "main").2.2 = 0 ∧
    (create_or_update_file okProv none 0 st0 "r" "p" bigContent "m"
        "main").2.1.client = st0.client ∧
    create_or_update_file okProv none 0 st0 "r" "p" bigContent "m"
        "main" =
      create_or_update_file (errProv (.valueError "revoked")) (some "bad")
        0 st0 "r" "p" bigContent "m" "main" := by
  have hsize : 1024 * 1024 < bigContent.utf8ByteSize := by
    rw [bigContent_size]; norm_num
  have hrate : (pruneWindow 0
      ((dictGet st0.rate "create_or_update_file").getD [])).length <
        RATE_LIMIT := by
    norm_num [st0, dictGet, pruneWindow, RATE_LIMIT]
  have h := C6_oversize_rejected_before_provider st0 okProv
    (errProv (.valueError "revoked")) none (some "bad") 0 "r" "p"
    bigContent "m" "main" hrate hsize
  exact ⟨hsize, h.1, h.2.1, h.2.2.1, h.2.2.2⟩

/-- C10: a write-file call rejected for oversized content still consumes
rate-limit quota: the limiter records the call's timestamp before the size
check runs, so the recorded list for create_or_update_file becomes the
pruned list plus the new timestamp even though the call returns a failure
envelope and performs no provider call. -/
theorem C10_oversize_write_consumes_quota
    (st : ServerState) (prov : Provider) (token : Option String)
    (now : Time) (repo path content message branch : String)
    (hrate : (pruneWindow now
        ((dictGet st.rate "create_or_update_file").getD [])).length <
          RATE_LIMIT)
    (hsize : 1024 * 1024 < content.utf8ByteSize) :
    (create_or_update_file prov token now st repo path content message
        branch).1 = .failure "File too large (max 1MB)" ∧
    (create_or_update_file prov token now st repo path content message
        branch).2.2 = 0 ∧
    (dictGet (create_or_update_file prov token now st repo path content
        message branch).2.1.rate "create_or_update_file").getD [] =
      pruneWindow now ((dictGet st.rate "create_or_update_file").getD [])
        ++ [now] := by
  have key : create_or_update_file prov token now st repo path content
      message branch =
      (.failure "File too large (max 1MB)",
       { st with rate := (dictSet st.rate "create_or_update_file"
           (pruneWindow now
             ((dictGet st.rate "create_or_update_file").getD []) ++
               [now])) },
       0) := by
    unfold create_or_update_file
    rw [check_rate_limit_accepts _ _ _ hrate]
    simp [hsize]
  rw [key]
  refine ⟨rfl, rfl, ?_⟩
  rw [dictGet_dictSet_self]
  rfl

/-- Witness for C10: after the oversized rejected call the recorded list
for create_or_update_file has grown by the call's timestamp. -/
theorem C10_oversize_write_consumes_quota_witness :
    1024 * 1024 < bigContent.utf8ByteSize ∧
    (create_or_update_file okProv (some "tok") 5 stTok "r2" "p2" bigContent
        "m2" "dev").1 = .failure "File too large (max 1MB)" ∧
    (create_or_update_file okProv (some "tok") 5 stTok "r2" "p2" bigContent
        "m2" "dev").2.2 = 0 ∧
    (dictGet (create_or_update_file okProv (some "tok") 5 stTok "r2" "p2"
        bigContent "m2" "dev").2.1.rate "create_or_update_file").getD [] =
      pruneWindow 5 ((dictGet stTok.rate "create_or_update_file").getD [])
        ++ [5] := by
  have hsize : 1024 * 1024 < bigContent.utf8ByteSize := by
    rw [bigContent_size]; norm_num
  have hrate : (pruneWindow 5
      ((dictGet stTok.rate "create_or_update_file").getD [])).length <
        RATE_LIMIT := by
    norm_num [stTok, dictGet, pruneWindow, RATE_LIMIT]
  have h := C10_oversize_write_consumes_quota stTok okProv (some "tok") 5
    "r2" "p2" bigContent "m2" "dev" hrate hsize
  exact ⟨hsize, h.1, h.2.1, h.2.2⟩

/-- C7: on the admitted, size-valid write path with the client available
and the repository lookup succeeding: a not-found (status 404) from the
provider's read of the target path leads to create_file and action
"created"; a successful read leads to update_file with the fetched sha
and action "updated"; any other read failure propagates as a failure
envelope after exactly two provider calls, so create_file is never
invoked. -/
theorem C7_write_create_vs_update
    (st : ServerState) (prov : Provider) (token : Option String)
    (g : String) (rd : RepoData) (now : Time)
    (repo path content message branch : String)
    (hrate : (pruneWindow now
        ((dictGet st.rate "create_or_update_file").getD [])).length <
          RATE_LIMIT)
    (hsize : content.utf8ByteSize ≤ 1024 * 1024)
    (hclient : st.client = some g)
    (hrepo : prov.get_repo repo = .ok rd) :
    (∀ d, prov.get_contents repo path branch = .error (.github 404 d) →
      prov.create_file repo path message content branch = .ok () →
      (create_or_update_file prov token now st repo path content message
          branch).1 =
        .success { action := "created", path := path,
                   size := content.utf8ByteSize }) ∧
    (∀ fd, prov.get_contents repo path branch = .ok fd →
      prov.update_file repo path message content fd.sha branch = .ok () →
      (create_or_update_file prov token now st repo path content message
          branch).1 =
        .success { action := "updated", path := path,
                   size := content.utf8ByteSize }) ∧
    (∀ e, prov.get_contents repo path branch = .error e →
      (∀ d, e ≠ .github 404 d) →
      (create_or_update_file prov token now st repo path content message
          branch).1 = .failure e.str ∧
      (create_or_update_file prov token now st repo path content message
          branch).2.2 = 2) := by
  refine ⟨?_, ?_, ?_⟩
  · intro d hgc hcf
    unfold create_or_update_file
    rw [check_rate_limit_accepts _ _ _ hrate]
    simp [not_lt.mpr hsize, hclient, get_github_client, hrepo, hgc, hcf]
  · intro fd hgc huf
    unfold create_or_update_file
    rw [check_rate_limit_accepts _ _ _ hrate]
    simp [not_lt.mpr hsize, hclient, get_github_client, hrepo, hgc, huf]
  · intro e hgc h404
    unfold create_or_update_file
    rw [check_rate_limit_accepts _ _ _ hrate]
    rcases e with ⟨status, data⟩ | m
    · have hs : status ≠ 404 := by
        intro heq
        exact h404 data (by rw [heq])
      simp [not_lt.mpr hsize, hclient, get_github_client, hrepo, hgc, hs]
    · simp [not_lt.mpr hsize, hclient, get_github_client, hrepo, hgc]

/-- Witness for C7: a not-found provider yields action "created"; a
successful read yields action "updated"; a 500 on the read propagates as
a failure after two provider calls. -/
theorem C7_write_create_vs_update_witness :
    (create_or_update_file provNotFound (some "tok") 0 stTok "r" "p" "c"
        "m" "main").1 =
      .success { action := "created", path := "p",
                 size := ("c" : String).utf8ByteSize } ∧
    (create_or_update_file okProv (some "tok") 0 stTok "r" "p" "c"
        "m" "main").1 =
      .success { action := "updated", path := "p",
                 size := ("c" : String).utf8ByteSize } ∧
    (create_or_update_file provServerErr (some "tok") 0 stTok "r" "p" "c"
        "m" "main").1 = .failure (PyExn.github 500 "boom").str ∧
    (create_or_update_file provServerErr (some "tok") 0 stTok "r" "p" "c"
        "m" "main").2.2 = 2 := by
  have hrate : (pruneWindow 0
      ((dictGet stTok.rate "create_or_update_file").getD [])).length <
        RATE_LIMIT := by
    norm_num [stTok, dictGet, pruneWindow, RATE_LIMIT]
  have hsize : ("c" : String).utf8ByteSize ≤ 1024 * 1024 := by decide
  have h1 := (C7_write_create_vs_update stTok provNotFound (some "tok")
    "tok" rd0 0 "r" "p" "c" "m" "main" hrate hsize rfl rfl).1
    "Not Found" rfl rfl
  have h2 := (C7_write_create_vs_update stTok okProv (some "tok")
    "tok" rd0 0 "r" "p" "c" "m" "main" hrate hsize rfl rfl).2.1
    fd0 rfl rfl
  have h3 := (C7_write_create_vs_update stTok provServerErr (some "tok")
    "tok" rd0 0 "r" "p" "c" "m" "main" hrate hsize rfl rfl).2.2
    (.github 500 "boom") rfl
    (by intro d h; injection h with ha hb; norm_num at ha)
  exact ⟨h1, h2, h3.1, h3.2⟩

/-- C8: an admitted search that succeeds returns at most the first 10
projected items, the count field equals the returned list's length, and
total_count is the provider-reported total, not the truncated length. -/
theorem C8_search_truncates_to_10
    (st : ServerState) (prov : Provider) (token : Option String)
    (g : String) (now : Time) (query : String) (repoOpt : Option String)
    (items : List CodeItem) (total : Nat)
    (hrate : (pruneWindow now
        ((dictGet st.rate "search_code").getD [])).length < RATE_LIMIT)
    (hclient : st.client = some g)
    (hsearch : prov.search_code (build_search_query query repoOpt) =
        .ok (items, total)) :
    (search_code prov token now st query repoOpt).1 =
      .success { results := (items.take 10).map code_item_entry,
                 count := ((items.take 10).map code_item_entry).length,
                 total_count := total } ∧
    ((items.take 10).map code_item_entry).length ≤ 10 := by
  constructor
  · unfold search_code
    rw [check_rate_limit_accepts _ _ _ hrate]
    simp [hclient, get_github_client, hsearch]
  · rw [List.length_map, List.length_take]
    exact min_le_left _ _

/-- Witness for C8: 12 provider items with a reported total of 57 yield
10 returned entries and total_count 57. -/
theorem C8_search_truncates_to_10_witness :
    provMany.search_code (build_search_query "q" none) =
      .ok (List.replicate 12 ci0, 57) ∧
    (search_code provMany (some "tok") 0 stTok "q" none).1 =
      .success { results :=
                   ((List.replicate 12 ci0).take 10).map code_item_entry,
                 count :=
                   (((List.replicate 12 ci0).take 10).map
                     code_item_entry).length,
                 total_count := 57 } ∧
    (((List.replicate 12 ci0).take 10).map code_item_entry).length ≤ 10 := by
  have hrate : (pruneWindow 0
      ((dictGet stTok.rate "search_code").getD [])).length < RATE_LIMIT := by
    norm_num [stTok, dictGet, pruneWindow, RATE_LIMIT]
  have h := C8_search_truncates_to_10 stTok provMany (some "tok") "tok" 0
    "q" none (List.replicate 12 ci0) 57 hrate rfl rfl
  exact ⟨rfl, h.1, h.2⟩

/-- C3: every handler returns a result envelope — success with fields or
failure with an error string — on every input, and each of the nine
handlers converts an arbitrary provider exception into a failure envelope
carrying the exception's textual description (shown against the provider
every operation of which raises). -/
theorem C3_handlers_always_return_envelopes :
    (∀ prov token now st repo path content message branch,
      (∃ p, (create_or_update_file prov token now st repo path content
          message branch).1 = Envelope.success p) ∨
      (∃ s, (create_or_update_file prov token now st repo path content
          message branch).1 = Envelope.failure s)) ∧
    (∀ prov decode token now st repo path branch,
      (∃ p, (get_file_contents prov decode token now st repo path
          branch).1 = Envelope.success p) ∨
      (∃ s, (get_file_contents prov decode token now st repo path
          branch).1 = Envelope.failure s)) ∧
    (∀ prov token now st org,
      (∃ p, (list_repos prov token now st org).1 = Envelope.success p) ∨
      (∃ s, (list_repos prov token now st org).1 = Envelope.failure s)) ∧
    (∀ prov token now st repo,
      (∃ p, (get_repo_info prov token now st repo).1 =
          Envelope.success p) ∨
      (∃ s, (get_repo_info prov token now st repo).1 =
          Envelope.failure s)) ∧
    (∀ prov token now st repo,
      (∃ p, (list_branches prov token now st repo).1 =
          Envelope.success p) ∨
      (∃ s, (list_branches prov token now st repo).1 =
          Envelope.failure s)) ∧
    (∀ prov token now st repo bn fb,
      (∃ p, (create_branch prov token now st repo bn fb).1 =
          Envelope.success p) ∨
      (∃ s, (create_branch prov token now st repo bn fb).1 =
          Envelope.failure s)) ∧
    (∀ prov token now st query repoOpt,
      (∃ p, (search_code prov token now st query repoOpt).1 =
          Envelope.success p) ∨
      (∃ s, (search_code prov token now st query repoOpt).1 =
          Envelope.failure s)) ∧
    (∀ prov token now st repo title head base body,
      (∃ p, (create_pull_request prov token now st repo title head base
          body).1 = Envelope.success p) ∨
      (∃ s, (create_pull_request prov token now st repo title head base
          body).1 = Envelope.failure s)) ∧
    (∀ prov token now st,
      (∃ p, (connection_status prov token now st).1 =
          Envelope.success p) ∨
      (∃ s, (connection_status prov token now st).1 =
          Envelope.failure s)) ∧
    (∀ e, (create_or_update_file (errProv e) (some "tok") 0 stTok
        "r" "p" "c" "m" "main").1 = .failure e.str) ∧
    (∀ e, (get_file_contents (errProv e) decodeOk (some "tok") 0 stTok
        "r" "p" "main").1 = .failure e.str) ∧
    (∀ e, (list_repos (errProv e) (some "tok") 0 stTok "o").1 =
        .failure e.str) ∧
    (∀ e, (get_repo_info (errProv e) (some "tok") 0 stTok "r").1 =
        .failure e.str) ∧
    (∀ e, (list_branches (errProv e) (some "tok") 0 stTok "r").1 =
        .failure e.str) ∧
    (∀ e, (create_branch (errProv e) (some "tok") 0 stTok "r" "b"
        "main").1 = .failure e.str) ∧
    (∀ e, (search_code (errProv e) (some "tok") 0 stTok "q" none).1 =
        .failure e.str) ∧
    (∀ e, (create_pull_request (errProv e) (some "tok") 0 stTok "r" "t"
        "h" "main" "").1 = .failure e.str) ∧
    (∀ e, (connection_status (errProv e) (some "tok") 0 stTok).1 =
        .failure e.str) := by
  refine ⟨?_, ?_, ?_, ?_, ?_, ?_, ?_, ?_, ?_, ?_, ?_, ?_, ?_, ?_, ?_,
    ?_, ?_, ?_⟩ <;>
    first
      | (intros; exact envelope_cases _)
      | (intro e; rfl)

end GithubMcp
